import Mathlib

/-
Verification of the model-guided fuzzer (etcd-fuzzing fork) against its
specification.  The development shallowly embeds the event / trace data
model, the JSON marshalling performed by the TLC client, the coverage
guider, the role-diff event emission of the cluster harness, the mutation
phase of the fuzzer driver, and the cloud pub/sub utility client.
-/

namespace EtcdFuzz

/-! ## JSON model -/

/-- Values produced by Go encoding/json marshalling, as used on the wire
between the TLC client and the model server. -/
inductive JsonValue where
  | str (s : String)
  | num (n : Int)
  | jbool (b : Bool)
  | obj (fields : List (String × JsonValue))
  | arr (elems : List JsonValue)

/-- Lookup of a field inside a JSON object; `none` when the value is not an
object or the key is absent. -/
def jsonField (key : String) : JsonValue → Option JsonValue
  | .obj fields => fields.lookup key
  | _ => none

/-! ## Events (types.go lines 8-13)

The Go struct is

  type Event struct \x7b
      Name   string
      Node   uint64 `json:"-"`
      Params map[string]interface\x7b\x7d
      Reset  bool
  \x7d

The struct tag on Node excludes it from the marshalled JSON. -/

/-- Event record of types.go.  The parameter bag is kept as an association
list of JSON values. -/
structure Event where
  name : String
  node : Nat
  params : List (String × JsonValue)
  reset : Bool

/-- Marshalling of one Event by encoding/json: Name, Params and Reset are
emitted; Node carries the struct tag that suppresses it, so no Node field
appears in the output object. -/
def Event.toJson (e : Event) : JsonValue :=
  .obj [("Name", .str e.name), ("Params", .obj e.params), ("Reset", .jbool e.reset)]

/-- The sentinel appended by TLCClient.SendTrace before marshalling: the Go
literal Event with Reset true and every other field at its zero value. -/
def resetSentinel : Event :=
  { name := "", node := 0, params := [], reset := true }

/-- Request body built by TLCClient.SendTrace (tlc_client.go lines 26-33):
the event trace with the reset sentinel appended, marshalled as a JSON
array. -/
def sendTraceBody (events : List Event) : JsonValue :=
  .arr ((events ++ [resetSentinel]).map Event.toJson)

/-! ## TLC client results and the coverage guider (guider.go lines 76-107) -/

/-- One abstract state returned by the TLC model server: a textual
representation plus an int64 key used for set membership. -/
structure TLCState where
  repr : String
  key : Int

/-- Outcome of TLCClient.SendTrace as observed by the guider: the parsed
list of states on success, or a transport or parse error. -/
inductive TransportResult where
  | ok (states : List TLCState)
  | err (msg : String)

/-- Mutable state of TLCStateGuider: the set of abstract state keys ever
seen and the set of hashes of event traces already scored. -/
structure TLCStateGuider where
  statesMap : Finset Int
  traceHashes : Finset String

/-- Result of one call of Check: a normal return carrying the number of new
states and the gain, or the panic raised on a transport error. -/
inductive CheckResult where
  | ok (numNewStates : Nat) (gain : ℚ)
  | fatal (msg : String)

/-- One step of the loop in the body of Check: a returned state whose key is
missing from the set is counted and inserted, any other state is skipped. -/
def insertStep (acc : Finset Int × Nat) (s : TLCState) : Finset Int × Nat :=
  if s.key ∈ acc.1 then acc else (insert s.key acc.1, acc.2 + 1)

/-- The full loop over the states returned by the server, starting from the
set held by the guider and a zero counter. -/
def insertStates (seen : Finset Int) (states : List TLCState) : Finset Int × Nat :=
  states.foldl insertStep (seen, 0)

/-- Translation of TLCStateGuider.Check.  The transport interaction is
passed in as data: `hash` stands for the hex digest of the marshalled event
trace and `transport` for the outcome of SendTrace.  The duplicate-hash
early return is modelled from the spec (the hash bookkeeping lines are
elided in the source excerpt): a trace whose hash was already scored yields
(0, 0) without any server call.  Otherwise, on success the keys missing
from statesMap are counted and inserted and the gain is the count divided
by max(curStates, 1) with curStates read before the insertions; on failure
Check panics. -/
def TLCStateGuider.Check (g : TLCStateGuider) (hash : String)
    (transport : TransportResult) : TLCStateGuider × CheckResult :=
  if hash ∈ g.traceHashes then (g, .ok 0 0)
  else
    match transport with
    | .ok tlcStates =>
        let curStates := g.statesMap.card
        let r := insertStates g.statesMap tlcStates
        ({ statesMap := r.1, traceHashes := insert hash g.traceHashes },
          .ok r.2 ((r.2 : ℚ) / ((max curStates 1 : Nat) : ℚ)))
    | .err m => (g, .fatal ("error connecting to tlc: " ++ m))

/-! ## Role-diff event emission in the cluster harness (raft.go excerpts) -/

/-- Role of a raft node, the StateType of the linked etcd raft library. -/
inductive StateType where
  | follower
  | candidate
  | leader
  | preCandidate
deriving DecidableEq

/-- BecomeLeader event as built in raft.go lines 175-181. -/
def becomeLeaderEvent (id : Nat) : Event :=
  { name := "BecomeLeader", node := id, params := [("node", .num (id : Int))], reset := false }

/-- ClientRequest event as built in raft.go lines 116-123 and 182-189. -/
def clientRequestEvent (request : Int) (leader : Nat) : Event :=
  { name := "ClientRequest", node := leader,
    params := [("request", .num request), ("leader", .num (leader : Int))], reset := false }

/-- Timeout event as built in raft.go lines 191-198. -/
def timeoutEvent (id : Nat) : Event :=
  { name := "Timeout", node := id, params := [("node", .num (id : Int))], reset := false }

/-- Role-diff emission of raft.go lines 175-198: after a step the harness
compares the previous and the new role and term of a node and appends the
corresponding events.  A change into Leader yields BecomeLeader followed by
the synthetic ClientRequest with request 0; otherwise a change into
Candidate, or an unchanged Candidate role under a strictly larger term,
yields Timeout. -/
def roleDiffEvents (id : Nat) (old nw : StateType) (oldTerm newTerm : Nat) : List Event :=
  if old ≠ nw ∧ nw = .leader then
    [becomeLeaderEvent id, clientRequestEvent 0 id]
  else if (old ≠ nw ∧ nw = .candidate) ∨ (oldTerm < newTerm ∧ old = nw ∧ nw = .candidate) then
    [timeoutEvent id]
  else
    []

/-- Condition under which, according to the specification sentence behind
claim C6, a Timeout event should be emitted: the node became Candidate
under a strictly greater term, or it transitioned from Follower to
Candidate. -/
def timeoutClaimCond (old nw : StateType) (oldTerm newTerm : Nat) : Prop :=
  (nw = .candidate ∧ oldTerm < newTerm) ∨ (old = .follower ∧ nw = .candidate)

/-! ## Commit-index emission per ready batch (raft.go lines 150-159) -/

/-- Log entry handed back in the CommittedEntries field of a ready batch. -/
structure RaftEntry where
  index : Nat
  term : Nat
  data : String

/-- AdvanceCommitIndex event as built in raft.go lines 150-159. -/
def advanceCommitIndexEvent (id : Nat) : Event :=
  { name := "AdvanceCommitIndex", node := id, params := [("i", .num (id : Int))], reset := false }

/-- Emission of AdvanceCommitIndex while processing one ready batch of the
node `id`: a single event when the batch contains at least one committed
entry, nothing otherwise. -/
def readyCommitEvents (id : Nat) (committedEntries : List RaftEntry) : List Event :=
  if committedEntries.length > 0 then [advanceCommitIndexEvent id] else []

/-! ## Scheduling choices, trace copy and the mutation phase (fuzzer.go) -/

/-- One recorded scheduler decision.  Modelled from the spec: the design
notes ask for each RandomBoolean and RandomInteger choice to carry a
consumed bit, used by the copy filter. -/
inductive SchedulingChoice where
  | node (id : Nat)
  | randomBoolean (value : Bool) (consumed : Bool)
  | randomInteger (value : Int) (consumed : Bool)

/-- Trace: an ordered finite sequence of scheduling choices. -/
abbrev Trace := List SchedulingChoice

/-- Modelled from the spec: defaultCopyFilter is not present in the source
excerpts; per the spec it keeps Node choices and drops RandomBoolean and
RandomInteger entries that were generated but never consumed. -/
def defaultCopyFilter : SchedulingChoice → Bool
  | .node _ => true
  | .randomBoolean _ consumed => consumed
  | .randomInteger _ consumed => consumed

/-- Modelled from the spec: copyTrace is not present in the source
excerpts; it deep-copies a trace keeping the choices accepted by the
filter.  In a pure embedding the deep copy is the filtered list itself. -/
def copyTrace (t : Trace) (f : SchedulingChoice → Bool) : Trace :=
  t.filter f

/-- One iteration of the mutation loop of fuzzer.go lines 269-275: the
mutator is invoked (counted in the first component) and on ok the child is
pushed, copied under the default copy filter.  The mutator is modelled as
an oracle indexed by the loop counter, `none` standing for ok = false. -/
def mutStep (mutate : Nat → Option Trace) (acc : Nat × List Trace) (j : Nat) :
    Nat × List Trace :=
  match mutate j with
  | some t => (acc.1 + 1, acc.2 ++ [copyTrace t defaultCopyFilter])
  | none => (acc.1 + 1, acc.2)

/-- The mutation loop run for `n` iterations, returning the number of
mutator invocations and the queue of pushed children in push order. -/
def runMutations (mutate : Nat → Option Trace) (n : Nat) : Nat × List Trace :=
  (List.range n).foldl (mutStep mutate) (0, [])

/-- Scoring tail of one fuzzer iteration (fuzzer.go line 268): when the
guider reported numNewStates > 0 the mutation loop runs
numNewStates * mutPerTrace times, otherwise nothing is enqueued. -/
def fuzzerMutationPhase (numNewStates mutPerTrace : Nat)
    (mutate : Nat → Option Trace) : Nat × List Trace :=
  if numNewStates > 0 then runMutations mutate (numNewStates * mutPerTrace) else (0, [])

end EtcdFuzz

namespace PubSubModel

/-! ## Cloud pub/sub client (pubsub/client.go) -/

/-- Payload and attributes of one pub/sub message. -/
structure PubSubMessage where
  data : String
  attributes : List (String × String)

/-- Acknowledgement mode of the client (client.go lines 33-40). -/
inductive AckMode where
  | nack
  | ack
deriving DecidableEq

/-- An Ack or Nack performed on a message. -/
inductive AckAction where
  | ack (m : PubSubMessage)
  | nack (m : PubSubMessage)

/-- The part of the PubSubClient state relevant to receiving: the message
buffer, the configured acknowledgement mode and the receiver flag. -/
structure PubSubClientState where
  messageBuffer : List PubSubMessage
  ackMode : AckMode
  receiverStarted : Bool

/-- Which branch of the select in ReceiveMessage fires when the buffer is
empty (client.go lines 241-265). -/
inductive RecvOutcome where
  | message (m : PubSubMessage)
  | nilMessage
  | chanClosed
  | recvError (e : String)
  | errChanClosed
  | deadline
  | canceled (e : String)

/-- Observable side effects of one ReceiveMessage call: whether the
background receiver was started, the Ack and Nack calls performed, and
whether the call waited on the subscription channels. -/
structure ReceiveEffects where
  startedReceiver : Bool
  ackActions : List AckAction
  waitedOnSubscription : Bool

/-- Effects of a call that neither starts the receiver, nor acks or nacks,
nor waits on the subscription. -/
def noEffects : ReceiveEffects :=
  { startedReceiver := false, ackActions := [], waitedOnSubscription := false }

/-- Translation of PubSubClient.ReceiveMessage (client.go lines 223-266).
With a non-empty buffer the oldest buffered message is removed and returned
at once.  Otherwise the continuous receiver is started and the call waits
on the channels; the fired branch is passed in as `outcome`, and a received
message is acked or nacked according to the mode. -/
def ReceiveMessage (c : PubSubClientState) (outcome : RecvOutcome) :
    Except String PubSubMessage × PubSubClientState × ReceiveEffects :=
  match c.messageBuffer with
  | m :: rest => (Except.ok m, { c with messageBuffer := rest }, noEffects)
  | [] =>
      let started := { c with receiverStarted := true }
      match outcome with
      | .message m =>
          (Except.ok m, started,
            { startedReceiver := true,
              ackActions := [if c.ackMode = AckMode.ack then AckAction.ack m else AckAction.nack m],
              waitedOnSubscription := true })
      | .nilMessage =>
          (Except.error "received nil message", started,
            { startedReceiver := true, ackActions := [], waitedOnSubscription := true })
      | .chanClosed =>
          (Except.error "message channel closed", started,
            { startedReceiver := true, ackActions := [], waitedOnSubscription := true })
      | .recvError e =>
          (Except.error ("receiver error: " ++ e), started,
            { startedReceiver := true, ackActions := [], waitedOnSubscription := true })
      | .errChanClosed =>
          (Except.error "error channel closed", started,
            { startedReceiver := true, ackActions := [], waitedOnSubscription := true })
      | .deadline =>
          (Except.error "timeout waiting for message", started,
            { startedReceiver := true, ackActions := [], waitedOnSubscription := true })
      | .canceled e =>
          (Except.error e, started,
            { startedReceiver := true, ackActions := [], waitedOnSubscription := true })

/-- Translation of PubSubClient.BufferMessage (client.go lines 269-273):
the message is appended at the back of the buffer. -/
def BufferMessage (c : PubSubClientState) (m : PubSubMessage) : PubSubClientState :=
  { c with messageBuffer := c.messageBuffer ++ [m] }

/-- Context under which the publish is attempted: the base client context
carries no deadline, the derived one carries the given timeout. -/
inductive PublishCtx where
  | base
  | withTimeout (timeout : Int)

/-- What result.Get returns for the publish: the server assigned id, or an
error (which includes the context expiring first). -/
inductive PublishGetOutcome where
  | ok (id : String)
  | err (e : String)

/-- Value of ctx.Err() at the moment result.Get returns. -/
inductive CtxErrState where
  | noErr
  | canceled
  | deadlineExceeded
deriving DecidableEq

/-- Translation of PubSubClient.PublishMessage (client.go lines 146-168).
Durations are modelled as integer nanoseconds.  The effective context is
the base context unless the timeout is strictly positive; the outcome of
result.Get and the state of ctx.Err() are passed in as data.  The result
is the effective context together with the returned id and error. -/
def PublishMessage (timeout : Int) (outcome : PublishGetOutcome)
    (ctxErr : CtxErrState) : PublishCtx × String × Option String :=
  let ctx := if 0 < timeout then PublishCtx.withTimeout timeout else PublishCtx.base
  match outcome with
  | .ok id => (ctx, id, Option.none)
  | .err e =>
      if ctxErr = CtxErrState.deadlineExceeded then
        (ctx, "", Option.some ("timeout publishing message: " ++ e))
      else
        (ctx, "", Option.some ("failed to publish message: " ++ e))

end PubSubModel

namespace EtcdFuzz

/-! ## Proofs about the guider -/

/-- Closed form of the insertion loop of Check, generalised over the
accumulator: the final set is the union with the returned keys and the
counter grows by the number of distinct returned keys missing from the
starting set. -/
theorem foldl_insertStep (l : List TLCState) :
    ∀ (seen : Finset Int) (k : Nat),
      l.foldl insertStep (seen, k) =
        (seen ∪ (l.map TLCState.key).toFinset,
         k + ((l.map TLCState.key).toFinset \ seen).card) := by
  induction l with
  | nil => intro seen k; simp
  | cons s rest ih =>
      intro seen k
      rw [List.foldl_cons]
      by_cases h : s.key ∈ seen
      · have hstep : insertStep (seen, k) s = (seen, k) := by
          simp [insertStep, h]
        rw [hstep, ih seen k, List.map_cons, List.toFinset_cons]
        rw [Finset.union_insert,
          Finset.insert_eq_self.mpr (Finset.mem_union_left _ h),
          Finset.insert_sdiff_of_mem _ h]
      · have hstep : insertStep (seen, k) s = (insert s.key seen, k + 1) := by
          simp [insertStep, h]
        rw [hstep, ih (insert s.key seen) (k + 1), List.map_cons, List.toFinset_cons]
        rw [Finset.insert_union, Finset.union_insert, Finset.sdiff_insert,
          Finset.insert_sdiff_of_not_mem _ h]
        simp only [Prod.mk.injEq]
        refine ⟨by first | rfl | trivial, ?_⟩
        by_cases hs : s.key ∈ (rest.map TLCState.key).toFinset \ seen
        · rw [Finset.insert_eq_self.mpr hs]
          have h1 := Finset.card_erase_add_one hs
          omega
        · rw [Finset.erase_eq_of_not_mem hs, Finset.card_insert_of_not_mem hs]
          omega

/-- C1: for a Check call whose model-server interaction succeeds, the
returned numNewStates equals the number of returned abstract-state keys
not already in the state set, every such key is inserted, and the gain is
numNewStates divided by max of the previous set size and 1. -/
theorem Check_new_states_and_gain (g : TLCStateGuider) (hash : String)
    (states : List TLCState) (h : hash ∉ g.traceHashes) :
    (g.Check hash (.ok states)).1.statesMap
        = g.statesMap ∪ (states.map TLCState.key).toFinset ∧
    (g.Check hash (.ok states)).2
        = CheckResult.ok (((states.map TLCState.key).toFinset \ g.statesMap).card)
            (((((states.map TLCState.key).toFinset \ g.statesMap).card : Nat) : ℚ)
              / ((max g.statesMap.card 1 : Nat) : ℚ)) := by
  unfold TLCStateGuider.Check
  rw [if_neg h]
  simp only [insertStates, foldl_insertStep states g.statesMap 0, Nat.zero_add]
  constructor <;> first | rfl | trivial

/-- Witness for C1: a guider that has seen key 1 scores a response holding
keys 2, 1 and again 2, gaining exactly the one distinct new key 2. -/
theorem Check_new_states_and_gain_witness :
    (TLCStateGuider.Check ⟨{1}, ∅⟩ "h"
        (.ok [⟨"s2", 2⟩, ⟨"s1", 1⟩, ⟨"s2b", 2⟩])).1.statesMap
        = {1} ∪ (([⟨"s2", 2⟩, ⟨"s1", 1⟩, ⟨"s2b", 2⟩] : List TLCState).map TLCState.key).toFinset ∧
    (TLCStateGuider.Check ⟨{1}, ∅⟩ "h"
        (.ok [⟨"s2", 2⟩, ⟨"s1", 1⟩, ⟨"s2b", 2⟩])).2
        = CheckResult.ok (((([⟨"s2", 2⟩, ⟨"s1", 1⟩, ⟨"s2b", 2⟩] : List TLCState).map
              TLCState.key).toFinset \ ({1} : Finset Int)).card)
            ((((((([⟨"s2", 2⟩, ⟨"s1", 1⟩, ⟨"s2b", 2⟩] : List TLCState).map
              TLCState.key).toFinset \ ({1} : Finset Int)).card) : Nat) : ℚ)
              / ((max ({1} : Finset Int).card 1 : Nat) : ℚ)) :=
  Check_new_states_and_gain ⟨{1}, ∅⟩ "h" [⟨"s2", 2⟩, ⟨"s1", 1⟩, ⟨"s2b", 2⟩] (by simp)

/-- C2: every call of Check leaves the set of abstract-state keys a
superset of its previous value, so its size never decreases. -/
theorem Check_statesMap_monotone (g : TLCStateGuider) (hash : String)
    (t : TransportResult) :
    g.statesMap ⊆ (g.Check hash t).1.statesMap ∧
    g.statesMap.card ≤ (g.Check hash t).1.statesMap.card := by
  have hsub : g.statesMap ⊆ (g.Check hash t).1.statesMap := by
    unfold TLCStateGuider.Check
    by_cases h : hash ∈ g.traceHashes
    · rw [if_pos h]
    · rw [if_neg h]
      cases t with
      | ok states =>
          simp only [insertStates, foldl_insertStep states g.statesMap 0]
          exact Finset.subset_union_left
      | err m => exact Finset.Subset.refl _
  exact ⟨hsub, Finset.card_le_card hsub⟩

/-- C3: a transport failure of SendTrace makes Check panic: the state set
is untouched and the call never produces a normal result, in particular
not the pair (0, 0). -/
theorem Check_transport_error_is_fatal (g : TLCStateGuider) (hash : String)
    (m : String) (h : hash ∉ g.traceHashes) :
    (g.Check hash (.err m)).1 = g ∧
    (g.Check hash (.err m)).2 = CheckResult.fatal ("error connecting to tlc: " ++ m) ∧
    ∀ n q, (g.Check hash (.err m)).2 ≠ CheckResult.ok n q := by
  unfold TLCStateGuider.Check
  rw [if_neg h]
  refine ⟨rfl, rfl, ?_⟩
  intro n q hcontra
  exact CheckResult.noConfusion hcontra

/-- Witness for C3 on an empty guider and the error string boom. -/
theorem Check_transport_error_is_fatal_witness :
    (TLCStateGuider.Check ⟨∅, ∅⟩ "h" (.err "boom")).1 = (⟨∅, ∅⟩ : TLCStateGuider) ∧
    (TLCStateGuider.Check ⟨∅, ∅⟩ "h" (.err "boom")).2
        = CheckResult.fatal ("error connecting to tlc: " ++ "boom") ∧
    ∀ n q, (TLCStateGuider.Check ⟨∅, ∅⟩ "h" (.err "boom")).2 ≠ CheckResult.ok n q :=
  Check_transport_error_is_fatal ⟨∅, ∅⟩ "h" "boom" (by simp)

/-! ## Proofs about the SendTrace request body -/

/-- C4: the request body marshalled by SendTrace is the JSON array of the
trace with the reset sentinel appended; its final element has Reset true
and no element of the array carries a Node field. -/
theorem sendTrace_body_spec (events : List Event) :
    sendTraceBody events
        = JsonValue.arr ((events ++ [resetSentinel]).map Event.toJson) ∧
    (∃ j, ((events ++ [resetSentinel]).map Event.toJson).getLast? = some j ∧
        jsonField "Reset" j = some (JsonValue.jbool true)) ∧
    ∀ j ∈ (events ++ [resetSentinel]).map Event.toJson, jsonField "Node" j = none := by
  refine ⟨rfl, ⟨Event.toJson resetSentinel, ?_, rfl⟩, ?_⟩
  · rw [List.map_append]
    simp
  · intro j hj
    rcases List.mem_map.mp hj with ⟨e, _, rfl⟩
    rfl

/-! ## Proofs about the role-diff emission -/

/-- C5: whenever the role-diff shows a node became Leader, the harness
emits exactly the two events BecomeLeader and then the synthetic
ClientRequest with request 0 and that node as leader. -/
theorem becomeLeader_emission (id : Nat) (old : StateType)
    (oldTerm newTerm : Nat) (h : old ≠ StateType.leader) :
    roleDiffEvents id old StateType.leader oldTerm newTerm
        = [becomeLeaderEvent id, clientRequestEvent 0 id] := by
  unfold roleDiffEvents
  rw [if_pos ⟨h, rfl⟩]

/-- Witness for C5: node 1 moving from Follower to Leader. -/
theorem becomeLeader_emission_witness :
    roleDiffEvents 1 StateType.follower StateType.leader 3 4
        = [becomeLeaderEvent 1, clientRequestEvent 0 1] :=
  becomeLeader_emission 1 StateType.follower 3 4 (by decide)

/-- C6 amended: the harness emits a Timeout event for a node exactly when
the role changed into Candidate (from any other role, whatever the terms),
or the role stayed Candidate while the term strictly increased. -/
theorem timeout_emission_characterization (id : Nat) (old nw : StateType)
    (oldTerm newTerm : Nat) :
    (∃ e ∈ roleDiffEvents id old nw oldTerm newTerm, e.name = "Timeout") ↔
      ((old ≠ nw ∧ nw = StateType.candidate) ∨
        (oldTerm < newTerm ∧ old = nw ∧ nw = StateType.candidate)) := by
  unfold roleDiffEvents
  by_cases h1 : old ≠ nw ∧ nw = StateType.leader
  · rw [if_pos h1]
    constructor
    · rintro ⟨e, he, hname⟩
      simp only [List.mem_cons, List.not_mem_nil, or_false] at he
      rcases he with rfl | rfl
      · simp [becomeLeaderEvent] at hname
      · simp [clientRequestEvent] at hname
    · rintro (⟨_, hc⟩ | ⟨_, _, hc⟩) <;> (rw [h1.2] at hc; cases hc)
  · rw [if_neg h1]
    by_cases h2 : (old ≠ nw ∧ nw = StateType.candidate) ∨
        (oldTerm < newTerm ∧ old = nw ∧ nw = StateType.candidate)
    · rw [if_pos h2]
      exact iff_of_true ⟨timeoutEvent id, List.mem_singleton_self _, rfl⟩ h2
    · rw [if_neg h2]
      constructor
      · rintro ⟨e, he, _⟩
        exact absurd he (List.not_mem_nil e)
      · intro hc
        exact absurd hc h2

/-- C6 counterexample: after a step in which the role changed from Leader
to Candidate with the term staying at 5, the role-diff code emits Timeout
although the condition stated in the claim does not hold there. -/
theorem timeout_claim_counterexample :
    roleDiffEvents 1 StateType.leader StateType.candidate 5 5 = [timeoutEvent 1] ∧
    ¬ timeoutClaimCond StateType.leader StateType.candidate 5 5 := by
  constructor
  · rfl
  · unfold timeoutClaimCond
    decide

/-! ## Proofs about commit-index emission -/

/-- C7: one processed ready batch emits AdvanceCommitIndex exactly once
when it contains at least one committed entry and zero times otherwise,
independently of how many entries were committed. -/
theorem advanceCommitIndex_once_per_ready (id : Nat) (entries : List RaftEntry) :
    readyCommitEvents id entries
        = (if entries.isEmpty then [] else [advanceCommitIndexEvent id]) ∧
    (readyCommitEvents id entries).countP (fun e => e.name == "AdvanceCommitIndex")
        = (if entries.isEmpty then 0 else 1) := by
  cases entries with
  | nil => exact ⟨rfl, rfl⟩
  | cons a rest =>
      refine ⟨?_, ?_⟩
      · simp [readyCommitEvents]
      · simp [readyCommitEvents, advanceCommitIndexEvent]

/-! ## Proofs about the mutation phase of the fuzzer driver -/

/-- Closed form of the mutation loop fold, generalised over the
accumulator: every iteration invokes the mutator once and the ok results
are appended in order, copied under the default filter. -/
theorem foldl_mutStep (mutate : Nat → Option Trace) (l : List Nat) :
    ∀ (c : Nat) (acc : List Trace),
      l.foldl (mutStep mutate) (c, acc) =
        (c + l.length,
         acc ++ (l.filterMap mutate).map (fun t => copyTrace t defaultCopyFilter)) := by
  induction l with
  | nil => intro c acc; simp
  | cons j rest ih =>
      intro c acc
      rw [List.foldl_cons]
      cases hm : mutate j with
      | none =>
          have hstep : mutStep mutate (c, acc) j = (c + 1, acc) := by
            simp [mutStep, hm]
          rw [hstep, ih (c + 1) acc]
          simp only [List.length_cons, List.filterMap_cons, hm, Prod.mk.injEq]
          exact ⟨by omega, trivial⟩
      | some t =>
          have hstep : mutStep mutate (c, acc) j
              = (c + 1, acc ++ [copyTrace t defaultCopyFilter]) := by
            simp [mutStep, hm]
          rw [hstep, ih (c + 1) _]
          simp only [List.length_cons, List.filterMap_cons, hm, List.map_cons,
            List.append_assoc, List.singleton_append, Prod.mk.injEq]
          exact ⟨by omega, trivial⟩

/-- C8: when the guider reports numNewStates > 0 the driver invokes the
mutator exactly numNewStates * mutPerTrace times and enqueues, in order,
the copy under the default filter of every child returned with ok; an
iteration with zero new states enqueues nothing. -/
theorem fuzzer_mutation_phase_spec (numNewStates mutPerTrace : Nat)
    (mutate : Nat → Option Trace) (h : 0 < numNewStates) :
    fuzzerMutationPhase numNewStates mutPerTrace mutate
        = (numNewStates * mutPerTrace,
           ((List.range (numNewStates * mutPerTrace)).filterMap mutate).map
             (fun t => copyTrace t defaultCopyFilter)) ∧
    fuzzerMutationPhase 0 mutPerTrace mutate = (0, []) := by
  constructor
  · unfold fuzzerMutationPhase
    rw [if_pos h]
    unfold runMutations
    rw [foldl_mutStep mutate (List.range (numNewStates * mutPerTrace)) 0 []]
    simp
  · rfl

/-- Mutator oracle used by the C8 witness: ok with a two-choice child on
the first invocation, ok = false afterwards. -/
def witnessMutate : Nat → Option Trace :=
  fun j => if j = 0 then
    some [SchedulingChoice.node 1, SchedulingChoice.randomBoolean true false]
  else none

/-- Witness for C8 at one new state and two mutations per trace. -/
theorem fuzzer_mutation_phase_witness :
    fuzzerMutationPhase 1 2 witnessMutate
        = (1 * 2,
           ((List.range (1 * 2)).filterMap witnessMutate).map
             (fun t => copyTrace t defaultCopyFilter)) ∧
    fuzzerMutationPhase 0 2 witnessMutate = (0, []) :=
  fuzzer_mutation_phase_spec 1 2 witnessMutate (by decide)

end EtcdFuzz

namespace PubSubModel

/-! ## Proofs about the pub/sub client -/

/-- C9: with a non-empty buffer, ReceiveMessage returns the head of the
buffer and removes it, touching nothing else: the background receiver is
not started, the call does not wait on the subscription, and the returned
message is neither acked nor nacked.  Since BufferMessage appends at the
back of the buffer, the head is the oldest buffered message and buffered
messages come back in first-in-first-out order. -/
theorem receive_from_buffer (c : PubSubClientState) (o : RecvOutcome)
    (m m2 : PubSubMessage) (rest : List PubSubMessage)
    (h : c.messageBuffer = m :: rest) :
    ReceiveMessage c o
        = (Except.ok m, { c with messageBuffer := rest }, noEffects) ∧
    (BufferMessage c m2).messageBuffer = c.messageBuffer ++ [m2] := by
  refine ⟨?_, rfl⟩
  unfold ReceiveMessage
  rw [h]

/-- Witness for C9: a two-message buffer under ack mode returns the first
message and keeps the second, with no side effects. -/
theorem receive_from_buffer_witness :
    ReceiveMessage ⟨[⟨"a", []⟩, ⟨"b", []⟩], AckMode.ack, false⟩ RecvOutcome.deadline
        = (Except.ok ⟨"a", []⟩,
           { (⟨[⟨"a", []⟩, ⟨"b", []⟩], AckMode.ack, false⟩ : PubSubClientState) with
               messageBuffer := [⟨"b", []⟩] },
           noEffects) ∧
    (BufferMessage ⟨[⟨"a", []⟩, ⟨"b", []⟩], AckMode.ack, false⟩ ⟨"c", []⟩).messageBuffer
        = [⟨"a", []⟩, ⟨"b", []⟩] ++ [⟨"c", []⟩] :=
  receive_from_buffer ⟨[⟨"a", []⟩, ⟨"b", []⟩], AckMode.ack, false⟩ RecvOutcome.deadline
    ⟨"a", []⟩ ⟨"c", []⟩ [⟨"b", []⟩] rfl

/-- C10: PublishMessage attempts the publish under the base context with no
deadline whenever the timeout is not positive; with a positive timeout
whose deadline expires it returns the empty id together with the timeout
error; and it returns an error exactly when the publish result fails. -/
theorem publish_message_spec (timeout : Int) (o : PublishGetOutcome)
    (ctxErr : CtxErrState) :
    (timeout ≤ 0 → (PublishMessage timeout o ctxErr).1 = PublishCtx.base) ∧
    (∀ e, 0 < timeout → ctxErr = CtxErrState.deadlineExceeded →
        o = PublishGetOutcome.err e →
        PublishMessage timeout o ctxErr
          = (PublishCtx.withTimeout timeout, "",
             Option.some ("timeout publishing message: " ++ e))) ∧
    ((∃ e, (PublishMessage timeout o ctxErr).2.2 = Option.some e) ↔
      (∃ e, o = PublishGetOutcome.err e)) := by
  refine ⟨?_, ?_, ?_⟩
  · intro ht
    have hn : ¬ (0 < timeout) := not_lt.mpr ht
    unfold PublishMessage
    simp only [if_neg hn]
    cases o with
    | ok id => rfl
    | err e =>
        by_cases hcc : ctxErr = CtxErrState.deadlineExceeded <;> simp [hcc]
  · intro e ht hc ho
    subst hc
    subst ho
    unfold PublishMessage
    simp [ht]
  · unfold PublishMessage
    cases o with
    | ok id => simp
    | err e =>
        by_cases hc : ctxErr = CtxErrState.deadlineExceeded <;> simp [hc]

/-- Witness for C10: timeout 5 with an expired deadline yields the empty id
and the timeout error. -/
theorem publish_message_spec_witness :
    PublishMessage 5 (PublishGetOutcome.err "boom") CtxErrState.deadlineExceeded
        = (PublishCtx.withTimeout 5, "",
           Option.some ("timeout publishing message: " ++ "boom")) :=
  (publish_message_spec 5 (PublishGetOutcome.err "boom")
      CtxErrState.deadlineExceeded).2.1 "boom" (by norm_num) rfl rfl

end PubSubModel
